import Mathlib

/-!
Shallow embedding of the job-scraper server (`server/index.js`).

The HTTP transport and the HTML parser are external capabilities; following
the code, a single oracle `fetch : Site → String → Except Unit (List
RawContainer)` stands for `axios.get` followed by `cheerio.load` and the
per-container sub-selector queries: on success it yields, for each element
matching `selectors.jobContainer`, the untrimmed `.text()` results of the
`title`/`company`/`location` sub-selectors (an empty selection yields `""`)
and the `href` attribute of the `link` sub-selector (`none` when the
selection is empty or the attribute is missing, mirroring `undefined`).
Site configurations are JavaScript objects, so every field is `Option`al
(`none` models an absent / `undefined` property).  Timestamps are modelled
as `Nat` (milliseconds since epoch); persistence is modelled atomically:
`fs.writeFileSync` either fully succeeds or leaves the prior file intact.
-/

namespace WebScrape

/-- The `selectors` object of a site configuration: five markup-query
strings (`jobContainer`, `title`, `company`, `location`, `link`). -/
structure Selectors where
  jobContainer : String
  title : String
  company : String
  location : String
  link : String
deriving DecidableEq, Repr

/-- A site configuration as stored in `sites.json` / received as a request
body.  Fields are optional because JavaScript objects may lack them. -/
structure Site where
  name : Option String
  url : Option String
  searchTerms : Option (List String)
  selectors : Option Selectors
deriving DecidableEq, Repr

/-- A job record as built in `scrapeJobs` and persisted in `jobs.json`.
`link` is `Option` because `attr('href')` may be `undefined`, in which case
the record is pushed with an `undefined` link field. -/
structure Job where
  id : String
  title : String
  company : String
  location : String
  link : Option String
  source : String
  keyword : String
  date : Nat
deriving DecidableEq, Repr

/-- Raw per-container extraction result delivered by the DOM capability:
untrimmed `.text()` of the three text sub-selectors and the optional
`href` attribute of the link sub-selector. -/
structure RawContainer where
  titleText : String
  companyText : String
  locationText : String
  href : Option String
deriving DecidableEq, Repr

/-- The fetch-and-parse capability for one (site, keyword) unit of work:
`.error` models any thrown transport/parse error, `.ok` the container
list of the fetched search page. -/
def FetchOracle : Type := Site → String → Except Unit (List RawContainer)

/-- JavaScript template-literal stringification of a possibly-absent
string (`${x}` prints `undefined` for an absent property). -/
def jsStr (o : Option String) : String :=
  match o with
  | none => "undefined"
  | some s => s

/-- Character-level model of JavaScript `String.prototype.trim`: strip
leading and trailing whitespace. -/
def trimChars (l : List Char) : List Char :=
  ((l.dropWhile Char.isWhitespace).reverse.dropWhile Char.isWhitespace).reverse

/-- `.trim()` on a string (structural implementation so that concrete
runs evaluate inside the kernel). -/
def jsTrim (s : String) : String :=
  ⟨trimChars s.data⟩

/-- Identity derivation: the template string `name-title-company` run
through `.replace` with the global character class `[^a-zA-Z0-9]`, so
every character outside `[a-zA-Z0-9]` becomes `'-'`. -/
def sanitizeId (s : String) : String :=
  ⟨s.data.map (fun c => if c.isAlphanum then c else '-')⟩

/-- `link.startsWith('http')` — character-level prefix test. -/
def strStartsWith (s p : String) : Bool :=
  p.data.isPrefixOf s.data

/-- Split a character list at the first occurrence of `://`, returning
the scheme part and the remainder. -/
def findSchemeSep : List Char → Option (List Char × List Char)
  | [] => none
  | ':' :: '/' :: '/' :: rest => some ([], rest)
  | c :: rest =>
      match findSchemeSep rest with
      | none => none
      | some (pre, post) => some (c :: pre, post)

/-- `new URL(url).origin` for well-formed http(s) URLs: the scheme plus
`://` plus everything up to the first `/`, `?` or `#` (so host and port
are kept, path/query/fragment are dropped). -/
def urlOrigin (url : String) : String :=
  match findSchemeSep url.data with
  | some (scheme, rest) =>
      ⟨scheme ++ ':' :: '/' :: '/' ::
        rest.takeWhile (fun c => c != '/' && c != '?' && c != '#')⟩
  | none => url

/-- The body of the `$(site.selectors.jobContainer).each` callback
(`server/index.js` lines 115–139): trim the three text fields, resolve a
truthy non-`http`-prefixed href against the origin of the site's base URL,
and push a record exactly when the trimmed title is non-empty. -/
def extractJob (site : Site) (term : String) (now : Nat) (c : RawContainer) :
    Option Job :=
  let title := jsTrim c.titleText
  let company := jsTrim c.companyText
  let location := jsTrim c.locationText
  let link : Option String :=
    match c.href with
    | none => none
    | some l =>
        if l ≠ "" ∧ ¬ strStartsWith l "http" then some (urlOrigin (jsStr site.url) ++ l)
        else some l
  if title ≠ "" then
    some { id := sanitizeId (jsStr site.name ++ "-" ++ title ++ "-" ++ company),
           title := title, company := company, location := location,
           link := link, source := jsStr site.name, keyword := term, date := now }
  else none

/-- One iteration of the `for (const term of site.searchTerms)` loop: the
whole body sits in a `try`/`catch` that logs and yields zero records, so a
fetch/parse failure — and likewise the `TypeError` thrown by
`site.selectors.jobContainer` when `selectors` is absent — contributes
nothing for this term. -/
def scrapeTerm (fetch : FetchOracle) (now : Nat) (site : Site) (term : String) :
    List Job :=
  match fetch site term with
  | .error _ => []
  | .ok cs =>
      match site.selectors with
      | none => []
      | some _ => cs.filterMap (extractJob site term now)

/-- `scrapeJobs(site)`: iterate the search terms, accumulating each term's
records.  The `for…of` head itself is *outside* the `try`, so when
`searchTerms` is absent the iteration throws a `TypeError` that escapes
`scrapeJobs` — modelled as `.error ()`. -/
def scrapeJobs (fetch : FetchOracle) (now : Nat) (site : Site) :
    Except Unit (List Job) :=
  match site.searchTerms with
  | none => .error ()
  | some terms => .ok ((terms.map (scrapeTerm fetch now site)).flatten)

/-- The per-site merge step of `runScraper` (lines 158–162): the set of
ids already accumulated is computed once, new jobs whose id is already
present are dropped, and the survivors are prepended (new before old). -/
def mergeSite (allJobs newJobs : List Job) : List Job :=
  let existingIds := allJobs.map Job.id
  let uniqueNewJobs := newJobs.filter (fun j => decide (j.id ∉ existingIds))
  uniqueNewJobs ++ allJobs

/-- The `for (const site of sites)` loop of `runScraper`: fold the per-site
merge over the registry in order, starting from the loaded corpus; an
exception thrown by `scrapeJobs` propagates and aborts the loop. -/
def mergeFold (fetch : FetchOracle) (now : Nat) :
    List Site → List Job → Except Unit (List Job)
  | [], allJobs => .ok allJobs
  | site :: rest, allJobs =>
      match scrapeJobs fetch now site with
      | .error e => .error e
      | .ok newJobs => mergeFold fetch now rest (mergeSite allJobs newJobs)

/-- Insertion step of the date sort: place `a` before the first element
whose date is not larger, keeping earlier input elements first among equal
dates (JavaScript `Array.prototype.sort` is stable). -/
def insertByDate (a : Job) : List Job → List Job
  | [] => [a]
  | b :: rest => if b.date ≤ a.date then a :: b :: rest else b :: insertByDate a rest

/-- The final `allJobs.sort` with comparator `new Date(b.date) - new
Date(a.date)`: a stable sort by date, newest first. -/
def sortJobs : List Job → List Job
  | [] => []
  | a :: l => insertByDate a (sortJobs l)

/-- `saveJobs(jobs)`: `fs.writeFileSync` wrapped in a `try`/`catch` that
only logs — a failed save leaves the prior store intact and surfaces no
error to the caller.  `saveOk` is the oracle for whether the write
succeeds. -/
def saveJobs (saveOk : Bool) (prior jobs : List Job) : List Job :=
  if saveOk then jobs else prior

/-- `runScraper()`: load the corpus (the `store` argument; a load failure
degrades to `[]` before this point), merge each site's scrape in registry
order, sort by date descending, save, and return the total job count.
The result pairs the persisted store after the run with the returned
count; `.error` models an uncaught exception escaping `runScraper`. -/
def runScraper (fetch : FetchOracle) (saveOk : Bool) (now : Nat)
    (sites : List Site) (store : List Job) : Except Unit (List Job × Nat) :=
  match mergeFold fetch now sites store with
  | .error e => .error e
  | .ok allJobs =>
      let sorted := sortJobs allJobs
      .ok (saveJobs saveOk store sorted, sorted.length)

/-- The JSON body answered by `POST /api/scrape`: `{success: true,
jobCount}` on success, a 500 error payload when `runScraper` threw. -/
structure ScrapeResponse where
  success : Bool
  jobCount : Option Nat
deriving DecidableEq, Repr

/-- The `POST /api/scrape` handler: `await runScraper()` inside
`try`/`catch`; the catch answers an error response and leaves the store
as it was. -/
def triggerRun (fetch : FetchOracle) (saveOk : Bool) (now : Nat)
    (sites : List Site) (store : List Job) : List Job × ScrapeResponse :=
  match runScraper fetch saveOk now sites store with
  | .ok (store2, n) => (store2, { success := true, jobCount := some n })
  | .error _ => (store, { success := false, jobCount := none })

/-- The id list of a corpus. -/
def jobIds (jobs : List Job) : List String :=
  jobs.map Job.id

/-! ### Site-registry CRUD (`/api/sites` handlers) -/

/-- Response of a registry CRUD handler: `created` is the 201 answer of
`POST`, `updated`/`deleted` the 200 answers of `PUT`/`DELETE`,
`badRequest` the 400 `Missing required fields` answer, `notFound` the 404
`Site not found` answer. -/
inductive SiteApiResult where
  | created (site : Site)
  | updated (site : Site)
  | deleted
  | badRequest
  | notFound
deriving DecidableEq, Repr

/-- JavaScript truthiness of a possibly-absent string property: absent
(`undefined`) and the empty string are falsy. -/
def truthyStr (o : Option String) : Bool :=
  match o with
  | none => false
  | some s => !s.data.isEmpty

/-- The required-fields check of `POST /api/sites`:
`!newSite.name || !newSite.url || !newSite.searchTerms ||
!newSite.selectors`.  Arrays and objects are always truthy when present
(even an empty `searchTerms` array passes). -/
def validSite (s : Site) : Bool :=
  truthyStr s.name && truthyStr s.url && s.searchTerms.isSome && s.selectors.isSome

/-- `POST /api/sites`: validate the body, then append it to the registry
and save. -/
def postSite (sites : List Site) (body : Site) : List Site × SiteApiResult :=
  if validSite body then (sites ++ [body], .created body)
  else (sites, .badRequest)

/-- `PUT /api/sites/:index`: `parseInt` the index (`none` models `NaN`),
reject `NaN`/out-of-range with 404, otherwise overwrite `sites[index]`
with the request body — with no field validation — and save. -/
def putSite (sites : List Site) (index : Option Int) (body : Site) :
    List Site × SiteApiResult :=
  match index with
  | none => (sites, .notFound)
  | some i =>
      if i < 0 ∨ (sites.length : Int) ≤ i then (sites, .notFound)
      else (sites.set i.toNat body, .updated body)

/-- `DELETE /api/sites/:index`: same index check as `PUT`, then
`sites.splice(index, 1)` and save. -/
def deleteSite (sites : List Site) (index : Option Int) :
    List Site × SiteApiResult :=
  match index with
  | none => (sites, .notFound)
  | some i =>
      if i < 0 ∨ (sites.length : Int) ≤ i then (sites, .notFound)
      else (sites.eraseIdx i.toNat, .deleted)

/-! ### Concrete fixtures used by witnesses and counterexamples -/

/-- A fully-populated selectors object. -/
def demoSelectors : Selectors :=
  ⟨".container", ".title", ".company", ".location", ".link"⟩

/-- The site of the spec's end-to-end example. -/
def acme : Site :=
  ⟨some "Acme", some "https://acme.test/search?q=", some ["audio"], some demoSelectors⟩

/-- Fetch stub of the end-to-end example: one container with title
`Sound Designer`, company `Studio X` and relative link `/job/42`. -/
def acmeFetch : FetchOracle :=
  fun _ _ => .ok [⟨"Sound Designer", "Studio X", "", some "/job/42"⟩]

/-- A fetch stub whose every search page holds one container with title
`T`, company `C` and no link element. -/
def dupFetch : FetchOracle :=
  fun _ _ => .ok [⟨"T", "C", "", none⟩]

/-- A site with two keywords, both of which surface the same container
under `dupFetch`. -/
def dupSite : Site :=
  ⟨some "A", some "http://a.test/?q=", some ["k1", "k2"], some demoSelectors⟩

/-- A single-keyword site named `A B`. -/
def spaceSite : Site :=
  ⟨some "A B", some "http://x.test/?q=", some ["k"], some demoSelectors⟩

/-- A single-keyword site named `A-B`: a different name than `A B`, but
the same name after id sanitization. -/
def dashSite : Site :=
  ⟨some "A-B", some "http://y.test/?q=", some ["k"], some demoSelectors⟩

/-- A single-keyword site named `B`. -/
def bSite : Site :=
  ⟨some "B", some "http://b.test/?q=", some ["k"], some demoSelectors⟩

/-- A site whose `searchTerms` property is absent. -/
def missingTermsSite : Site :=
  ⟨some "X", some "http://x.test/?q=", none, some demoSelectors⟩

/-- A site whose `searchTerms` is present but empty. -/
def emptyTermsSite : Site :=
  ⟨some "E", some "http://e.test/?q=", some [], some demoSelectors⟩

/-- A site whose `selectors` property is absent. -/
def noSelectorsSite : Site :=
  ⟨some "N", some "http://n.test/?q=", some ["k"], none⟩

/-- A request body missing every required field. -/
def emptyBody : Site := ⟨none, none, none, none⟩

/-- A previously persisted job record. -/
def priorJob : Job :=
  ⟨"Old-Rec", "Rec", "Old", "", none, "Old", "k", 3⟩

/-- A fetch stub that fails (transport error) exactly for the site named
`B` and behaves like `dupFetch` elsewhere. -/
def failFetch : FetchOracle :=
  fun s t => if s.name = some "B" then .error () else dupFetch s t

/-- A fetch stub returning one container whose title needs trimming,
whose company text is empty and whose link selector matched nothing. -/
def noHrefFetch : FetchOracle :=
  fun _ _ => .ok [⟨" Dev ", "", "City", none⟩]

/-- The record `dupFetch` yields for `dupSite`'s first keyword. -/
def jobA : Job := ⟨"A-T-C", "T", "C", "", none, "A", "k1", 5⟩

/-- The record `dupFetch` yields for `bSite`'s keyword. -/
def jobB : Job := ⟨"B-T-C", "T", "C", "", none, "B", "k", 5⟩

end WebScrape

namespace WebScrape

/-! ### Helper lemmas -/

/-- The id of an extracted record does not depend on the timestamp. -/
theorem extractJob_id_now (site : Site) (term : String) (now1 now2 : Nat)
    (c : RawContainer) :
    (extractJob site term now1 c).map Job.id = (extractJob site term now2 c).map Job.id := by
  unfold extractJob
  by_cases h : jsTrim c.titleText ≠ ""
  · simp [h]
  · simp [h]

/-- The ids a unit of work produces do not depend on the timestamp. -/
theorem scrapeTerm_id_now (fetch : FetchOracle) (now1 now2 : Nat) (site : Site)
    (term : String) :
    (scrapeTerm fetch now1 site term).map Job.id
      = (scrapeTerm fetch now2 site term).map Job.id := by
  unfold scrapeTerm
  cases fetch site term with
  | error e => rfl
  | ok cs =>
      cases site.selectors with
      | none => rfl
      | some sel =>
          simp only [List.map_filterMap]
          congr 1
          funext c
          exact extractJob_id_now site term now1 now2 c

/-- Merging never removes an id already accumulated. -/
theorem jobIds_mergeSite_left {all : List Job} (new : List Job) {i : String}
    (hi : i ∈ jobIds all) : i ∈ jobIds (mergeSite all new) := by
  simp only [mergeSite, jobIds, List.map_append, List.mem_append]
  exact Or.inr hi

/-- Every id a site's scrape observed is present after the merge step:
either it survived the filter, or it was filtered precisely because the
id was already accumulated. -/
theorem jobIds_mergeSite_new (all : List Job) {new : List Job} {j : Job}
    (hj : j ∈ new) : j.id ∈ jobIds (mergeSite all new) := by
  by_cases h : j.id ∈ jobIds all
  · exact jobIds_mergeSite_left new h
  · simp only [mergeSite, jobIds, List.map_append, List.mem_append]
    refine Or.inl (List.mem_map_of_mem _ (List.mem_filter.2 ⟨hj, ?_⟩))
    simpa [jobIds] using h

/-- Provenance of one merge step: a merged record is a new record or an
accumulated one. -/
theorem mem_mergeSite {all new : List Job} {j : Job}
    (hj : j ∈ mergeSite all new) : j ∈ new ∨ j ∈ all := by
  rcases List.mem_append.1 hj with h | h
  · exact Or.inl (List.mem_filter.1 h).1
  · exact Or.inr h

/-- Unfolding of `scrapeJobs` on a site whose `searchTerms` is present. -/
theorem scrapeJobs_of_terms {fetch : FetchOracle} {now : Nat} {site : Site}
    {ts : List String} (hts : site.searchTerms = some ts) :
    scrapeJobs fetch now site = .ok ((ts.map (scrapeTerm fetch now site)).flatten) := by
  simp [scrapeJobs, hts]

/-- When every site's `searchTerms` is present, the site loop of
`runScraper` throws no exception. -/
theorem mergeFold_ok (fetch : FetchOracle) (now : Nat) :
    ∀ (sites : List Site) (store : List Job),
      (∀ s ∈ sites, s.searchTerms.isSome) →
      ∃ final, mergeFold fetch now sites store = .ok final := by
  intro sites
  induction sites with
  | nil => exact fun store _ => ⟨store, rfl⟩
  | cons s rest ih =>
      intro store h
      obtain ⟨ts, hts⟩ := Option.isSome_iff_exists.1 (h s (List.mem_cons_self _ _))
      obtain ⟨final, hfinal⟩ :=
        ih (mergeSite store ((ts.map (scrapeTerm fetch now s)).flatten))
          (fun s' hs' => h s' (List.mem_cons_of_mem _ hs'))
      exact ⟨final, by rw [mergeFold, scrapeJobs_of_terms hts]; exact hfinal⟩

/-- Through the whole site loop, ids only accumulate: every id of the
starting corpus and every id observed by any unit of work of any site is
in the final id list. -/
theorem mergeFold_ids (fetch : FetchOracle) (now : Nat) :
    ∀ (sites : List Site) (store final : List Job),
      mergeFold fetch now sites store = .ok final →
      (∀ i ∈ jobIds store, i ∈ jobIds final) ∧
      (∀ s ∈ sites, ∀ ts, s.searchTerms = some ts → ∀ t ∈ ts,
        ∀ j ∈ scrapeTerm fetch now s t, j.id ∈ jobIds final) := by
  intro sites
  induction sites with
  | nil =>
      intro store final h
      rw [mergeFold] at h
      obtain rfl : store = final := by injection h
      exact ⟨fun i hi => hi, fun s hs => absurd hs (List.not_mem_nil _)⟩
  | cons s rest ih =>
      intro store final h
      rw [mergeFold] at h
      cases hsj : scrapeJobs fetch now s with
      | error e => rw [hsj] at h; cases h
      | ok newJobs =>
          rw [hsj] at h
          obtain ⟨hsub, hrest⟩ := ih _ _ h
          refine ⟨fun i hi => hsub _ (jobIds_mergeSite_left _ hi), ?_⟩
          intro s' hs' ts hts t ht j hj
          rcases List.mem_cons.1 hs' with rfl | hs'
          · have hflat : (ts.map (scrapeTerm fetch now s')).flatten = newJobs := by
              rw [scrapeJobs_of_terms hts] at hsj
              injection hsj
            have hjnew : j ∈ newJobs :=
              hflat ▸ List.mem_flatten_of_mem (List.mem_map_of_mem _ ht) hj
            exact hsub _ (jobIds_mergeSite_new _ hjnew)
          · exact hrest s' hs' ts hts t ht j hj

/-- Provenance through the whole site loop: every record of the merged
corpus was already persisted or was produced by some unit of work. -/
theorem mergeFold_provenance (fetch : FetchOracle) (now : Nat) :
    ∀ (sites : List Site) (store final : List Job),
      mergeFold fetch now sites store = .ok final →
      ∀ j ∈ final, j ∈ store ∨ ∃ s, s ∈ sites ∧ ∃ ts, s.searchTerms = some ts ∧
        ∃ t, t ∈ ts ∧ j ∈ scrapeTerm fetch now s t := by
  intro sites
  induction sites with
  | nil =>
      intro store final h
      rw [mergeFold] at h
      obtain rfl : store = final := by injection h
      exact fun j hj => Or.inl hj
  | cons s rest ih =>
      intro store final h
      rw [mergeFold] at h
      cases hsj : scrapeJobs fetch now s with
      | error e => rw [hsj] at h; cases h
      | ok newJobs =>
          rw [hsj] at h
          intro j hj
          cases hts : s.searchTerms with
          | none => rw [scrapeJobs] at hsj; rw [hts] at hsj; cases hsj
          | some ts =>
              rcases ih _ _ h j hj with hmem | ⟨s', hs', hprov⟩
              · rcases mem_mergeSite hmem with hnew | hold
                · have hflat : (ts.map (scrapeTerm fetch now s)).flatten = newJobs := by
                    rw [scrapeJobs_of_terms hts] at hsj
                    injection hsj
                  rcases List.mem_flatten.1 (hflat ▸ hnew) with ⟨l, hl, hjl⟩
                  rcases List.mem_map.1 hl with ⟨t, ht, rfl⟩
                  exact Or.inr ⟨s, List.mem_cons_self _ _, ts, hts, t, ht, hjl⟩
                · exact Or.inl hold
              · exact Or.inr ⟨s', List.mem_cons_of_mem _ hs', hprov⟩

/-- When every id any unit of work can observe is already in the corpus,
the site loop leaves the corpus unchanged. -/
theorem mergeFold_stationary (fetch : FetchOracle) (now : Nat) :
    ∀ (sites : List Site) (store : List Job),
      (∀ s ∈ sites, s.searchTerms.isSome) →
      (∀ s ∈ sites, ∀ ts, s.searchTerms = some ts → ∀ t ∈ ts,
        ∀ j ∈ scrapeTerm fetch now s t, j.id ∈ jobIds store) →
      mergeFold fetch now sites store = .ok store := by
  intro sites
  induction sites with
  | nil => exact fun store _ _ => rfl
  | cons s rest ih =>
      intro store hterms hids
      obtain ⟨ts, hts⟩ := Option.isSome_iff_exists.1 (hterms s (List.mem_cons_self _ _))
      have hfilter :
          ((ts.map (scrapeTerm fetch now s)).flatten).filter
            (fun j => decide (j.id ∉ store.map Job.id)) = [] := by
        rw [List.filter_eq_nil_iff]
        intro j hj
        rcases List.mem_flatten.1 hj with ⟨l, hl, hjl⟩
        rcases List.mem_map.1 hl with ⟨t, ht, rfl⟩
        have := hids s (List.mem_cons_self _ _) ts hts t ht j hjl
        simp only [jobIds] at this
        simp [this]
      have hmerge : mergeSite store ((ts.map (scrapeTerm fetch now s)).flatten) = store := by
        simp only [mergeSite, hfilter, List.nil_append]
      rw [mergeFold, scrapeJobs_of_terms hts]
      show mergeFold fetch now rest
        (mergeSite store ((ts.map (scrapeTerm fetch now s)).flatten)) = Except.ok store
      rw [hmerge]
      exact ih store (fun s' hs' => hterms s' (List.mem_cons_of_mem _ hs'))
        (fun s' hs' => hids s' (List.mem_cons_of_mem _ hs'))

/-- A registry containing a site whose `searchTerms` is absent makes the
site loop throw: the `for…of` `TypeError` is uncaught. -/
theorem mergeFold_error_of_missing_terms (fetch : FetchOracle) (now : Nat) :
    ∀ (sites : List Site) (store : List Job) (site : Site),
      site ∈ sites → site.searchTerms = none →
      mergeFold fetch now sites store = .error () := by
  intro sites
  induction sites with
  | nil => exact fun store site h => absurd h (List.not_mem_nil _)
  | cons s rest ih =>
      intro store site hmem hnone
      cases hts : s.searchTerms with
      | none => rw [mergeFold, scrapeJobs, hts]
      | some ts =>
          rcases List.mem_cons.1 hmem with rfl | hmem'
          · rw [hnone] at hts; cases hts
          · rw [mergeFold, scrapeJobs_of_terms hts]
            exact ih _ site hmem' hnone

/-- A unit of work on a site whose `selectors` object is absent yields
zero records: the `TypeError` is caught by the per-term handler. -/
theorem scrapeTerm_selectors_none {fetch : FetchOracle} {now : Nat} {site : Site}
    (hsel : site.selectors = none) (term : String) :
    scrapeTerm fetch now site term = [] := by
  unfold scrapeTerm
  cases fetch site term with
  | error e => rfl
  | ok cs => rw [hsel]

/-- Date-sort insertion is a permutation. -/
theorem insertByDate_perm (a : Job) (l : List Job) :
    List.Perm (insertByDate a l) (a :: l) := by
  induction l with
  | nil => exact List.Perm.refl _
  | cons b rest ih =>
      rw [insertByDate]
      split
      · exact List.Perm.refl _
      · exact (ih.cons b).trans (List.Perm.swap a b rest)

/-- The date sort is a permutation. -/
theorem sortJobs_perm (l : List Job) : List.Perm (sortJobs l) l := by
  induction l with
  | nil => exact List.Perm.refl _
  | cons a l ih => exact (insertByDate_perm a (sortJobs l)).trans (ih.cons a)

/-- Sorting does not change membership. -/
theorem mem_sortJobs {j : Job} {l : List Job} : j ∈ sortJobs l ↔ j ∈ l :=
  (sortJobs_perm l).mem_iff

/-- Sorting does not change the set of ids. -/
theorem jobIds_sortJobs (l : List Job) (i : String) :
    i ∈ jobIds (sortJobs l) ↔ i ∈ jobIds l :=
  ((sortJobs_perm l).map Job.id).mem_iff

/-- Sorting does not change the corpus length. -/
theorem length_sortJobs (l : List Job) : (sortJobs l).length = l.length :=
  (sortJobs_perm l).length_eq

end WebScrape

namespace WebScrape

/-! ### Claim theorems -/

/-- C1: idempotence of the pipeline.  For any corpus and any site
configuration whose sites all carry a `searchTerms` list, running
`runScraper` twice in immediate succession with the same, fully
successful fetch results leaves the corpus id-set unchanged after the
second run, and the second run's `jobCount` equals the first's. -/
theorem pipeline_idempotent (fetch : FetchOracle) (now1 now2 : Nat)
    (sites : List Site) (store : List Job)
    (hterms : ∀ s ∈ sites, s.searchTerms.isSome)
    (hok : ∀ s ∈ sites, ∀ ts, s.searchTerms = some ts → ∀ t ∈ ts,
      (fetch s t).isOk = true) :
    ∃ store1 n1 store2 n2,
      runScraper fetch true now1 sites store = .ok (store1, n1) ∧
      runScraper fetch true now2 sites store1 = .ok (store2, n2) ∧
      (jobIds store2).toFinset = (jobIds store1).toFinset ∧ n2 = n1 := by
  obtain ⟨f1, hf1⟩ := mergeFold_ok fetch now1 sites store hterms
  have h1 : runScraper fetch true now1 sites store
      = .ok (sortJobs f1, (sortJobs f1).length) := by
    rw [runScraper, hf1]
    rfl
  have hsup : ∀ s ∈ sites, ∀ ts, s.searchTerms = some ts → ∀ t ∈ ts,
      ∀ j ∈ scrapeTerm fetch now2 s t, j.id ∈ jobIds (sortJobs f1) := by
    intro s hs ts hts t ht j hj
    have hmm : j.id ∈ (scrapeTerm fetch now1 s t).map Job.id := by
      rw [scrapeTerm_id_now fetch now1 now2 s t]
      exact List.mem_map_of_mem _ hj
    rcases List.mem_map.1 hmm with ⟨j', hj', hid⟩
    have hin := (mergeFold_ids fetch now1 sites store f1 hf1).2 s hs ts hts t ht j' hj'
    exact (jobIds_sortJobs f1 _).2 (hid ▸ hin)
  have hstat := mergeFold_stationary fetch now2 sites (sortJobs f1) hterms hsup
  have h2 : runScraper fetch true now2 sites (sortJobs f1)
      = .ok (sortJobs (sortJobs f1), (sortJobs (sortJobs f1)).length) := by
    rw [runScraper, hstat]
    rfl
  refine ⟨sortJobs f1, (sortJobs f1).length, sortJobs (sortJobs f1),
    (sortJobs (sortJobs f1)).length, h1, h2, ?_, ?_⟩
  · ext i
    simp only [List.mem_toFinset]
    exact jobIds_sortJobs (sortJobs f1) i
  · exact length_sortJobs (sortJobs f1)

/-- C1 witness: the idempotence theorem applied to a concrete one-site
registry and always-successful fetch stub. -/
theorem pipeline_idempotent_witness :
    (∀ s ∈ [dupSite], s.searchTerms.isSome) ∧
    ∃ store1 n1 store2 n2,
      runScraper dupFetch true 1 [dupSite] [] = .ok (store1, n1) ∧
      runScraper dupFetch true 2 [dupSite] store1 = .ok (store2, n2) ∧
      (jobIds store2).toFinset = (jobIds store1).toFinset ∧ n2 = n1 :=
  ⟨by decide, pipeline_idempotent dupFetch 1 2 [dupSite] [] (by decide)
    (fun _ _ _ _ _ _ => rfl)⟩

/-- C2: evaluation of the run at the failing input.  One site with two
keywords that surface the same title+company produces a corpus holding
BOTH records with the identical id `A-T-C` (keywords `k1` and `k2`), and
`jobCount` is 2: the duplicate is not collapsed to the first keyword's
record, because the per-site id filter is computed from the corpus before
the site's own batch is merged and never looks inside the batch. -/
theorem same_site_duplicates_kept :
    ((triggerRun dupFetch true 5 [dupSite] []).1).map (fun j => (j.id, j.keyword))
        = [("A-T-C", "k1"), ("A-T-C", "k2")] ∧
    (triggerRun dupFetch true 5 [dupSite] []).2 =
      { success := true, jobCount := some 2 } := ⟨rfl, rfl⟩

/-- C3 counterexample: with a failing save, the trigger caller still
receives a success response (`{success := true, jobCount := 2}`) — the
save error is not surfaced — while the persisted corpus stays the prior
one.  This refutes the claim that the run is reported as errored. -/
theorem save_failure_reports_success_cex :
    (triggerRun dupFetch false 5 [spaceSite] [priorJob]).2 =
      { success := true, jobCount := some 2 } ∧
    (triggerRun dupFetch false 5 [spaceSite] [priorJob]).1 = [priorJob] := ⟨rfl, rfl⟩

/-- C3 amended: `saveJobs` catches and only logs a write failure, so when
the merge loop completes, a failed save leaves the previously persisted
corpus intact (no partial write) but the run still reports success to the
trigger caller; the error is never surfaced. -/
theorem save_failure_swallowed (fetch : FetchOracle) (now : Nat) (sites : List Site)
    (store : List Job) (hterms : ∀ s ∈ sites, s.searchTerms.isSome) :
    (triggerRun fetch false now sites store).1 = store ∧
    (triggerRun fetch false now sites store).2.success = true := by
  obtain ⟨f1, hf1⟩ := mergeFold_ok fetch now sites store hterms
  simp [triggerRun, runScraper, hf1, saveJobs]

/-- C3 witness: the amended save-failure theorem at a concrete registry
and prior corpus. -/
theorem save_failure_swallowed_witness :
    (∀ s ∈ [spaceSite], s.searchTerms.isSome) ∧
    (triggerRun dupFetch false 5 [spaceSite] [priorJob]).1 = [priorJob] ∧
    (triggerRun dupFetch false 5 [spaceSite] [priorJob]).2.success = true := by
  refine ⟨by decide, ?_, ?_⟩
  · exact (save_failure_swallowed dupFetch 5 [spaceSite] [priorJob] (by decide)).1
  · exact (save_failure_swallowed dupFetch 5 [spaceSite] [priorJob] (by decide)).2

/-- C4: failure isolation per unit of work.  If the fetch for one
(site, keyword) pair fails while every site has its keyword list, that
pair contributes zero records, the run completes and reports success,
every record observed by any (other) unit still has its id in the final
corpus, and every final record is either previously persisted or comes
from some unit of work (hence nothing is attributed to the failing pair,
whose contribution is the empty list). -/
theorem failure_isolation (fetch : FetchOracle) (now : Nat) (sites : List Site)
    (store : List Job) (sF : Site) (ks : List String) (kF : String)
    (hterms : ∀ s ∈ sites, s.searchTerms.isSome)
    (hsF : sF ∈ sites) (hks : sF.searchTerms = some ks) (hkF : kF ∈ ks)
    (hfail : fetch sF kF = .error ()) :
    scrapeTerm fetch now sF kF = [] ∧
    ∃ final n, runScraper fetch true now sites store = .ok (final, n) ∧
      (triggerRun fetch true now sites store).2.success = true ∧
      (∀ s ∈ sites, ∀ ts, s.searchTerms = some ts → ∀ t ∈ ts,
        ∀ j ∈ scrapeTerm fetch now s t, j.id ∈ jobIds final) ∧
      (∀ j ∈ final, j ∈ store ∨ ∃ s, s ∈ sites ∧ ∃ ts, s.searchTerms = some ts ∧
        ∃ t, t ∈ ts ∧ j ∈ scrapeTerm fetch now s t) := by
  constructor
  · rw [scrapeTerm, hfail]
  obtain ⟨f1, hf1⟩ := mergeFold_ok fetch now sites store hterms
  have hrun : runScraper fetch true now sites store
      = .ok (sortJobs f1, (sortJobs f1).length) := by
    rw [runScraper, hf1]
    rfl
  refine ⟨sortJobs f1, (sortJobs f1).length, hrun, ?_, ?_, ?_⟩
  · simp [triggerRun, hrun]
  · intro s hs ts hts t ht j hj
    exact (jobIds_sortJobs f1 _).2
      ((mergeFold_ids fetch now sites store f1 hf1).2 s hs ts hts t ht j hj)
  · intro j hj
    exact mergeFold_provenance fetch now sites store f1 hf1 j (mem_sortJobs.1 hj)

/-- C4 witness: the failure-isolation theorem with a two-site registry
whose second site's only fetch fails. -/
theorem failure_isolation_witness :
    failFetch bSite "k" = .error () ∧
    (scrapeTerm failFetch 9 bSite "k" = [] ∧
      ∃ final n, runScraper failFetch true 9 [dupSite, bSite] [] = .ok (final, n) ∧
        (triggerRun failFetch true 9 [dupSite, bSite] []).2.success = true ∧
        (∀ s ∈ [dupSite, bSite], ∀ ts, s.searchTerms = some ts → ∀ t ∈ ts,
          ∀ j ∈ scrapeTerm failFetch 9 s t, j.id ∈ jobIds final) ∧
        (∀ j ∈ final, j ∈ ([] : List Job) ∨ ∃ s, s ∈ [dupSite, bSite] ∧ ∃ ts,
          s.searchTerms = some ts ∧ ∃ t, t ∈ ts ∧ j ∈ scrapeTerm failFetch 9 s t)) :=
  ⟨rfl, failure_isolation failFetch 9 [dupSite, bSite] [] bSite ["k"] "k"
    (by decide) (by decide) rfl (by decide) rfl⟩

end WebScrape

namespace WebScrape

/-- C5 counterexample: two records observed in the same run with
identical title `T` and company `C` but different sources `A B` and
`A-B` do NOT both survive: id sanitization maps both site names to the
same id `A-B-T-C`, so the second site's record is filtered out and the
merged corpus holds a single entry.  Distinct `source` does not imply a
distinct id. -/
theorem distinct_source_same_id_cex :
    (scrapeTerm dupFetch 5 spaceSite "k").map
        (fun j => (j.source, j.title, j.company, j.id))
      = [("A B", "T", "C", "A-B-T-C")] ∧
    (scrapeTerm dupFetch 5 dashSite "k").map
        (fun j => (j.source, j.title, j.company, j.id))
      = [("A-B", "T", "C", "A-B-T-C")] ∧
    (triggerRun dupFetch true 5 [spaceSite, dashSite] []).1.map
        (fun j => (j.source, j.id))
      = [("A B", "A-B-T-C")] := ⟨rfl, rfl, rfl⟩

/-- C5 amended: two records observed in the same run with identical
title and company but different source both survive into the merged
corpus as distinct entries PROVIDED their derived ids differ (which
distinct source alone does not guarantee, since the id replaces every
non-alphanumeric character by `-`). -/
theorem distinct_ids_both_survive (fetch : FetchOracle) (now : Nat) (sites : List Site)
    (store : List Job) (sA sB : Site) (tsA tsB : List String) (tA tB : String)
    (j1 j2 : Job)
    (hterms : ∀ s ∈ sites, s.searchTerms.isSome)
    (hsA : sA ∈ sites) (htsA : sA.searchTerms = some tsA) (htA : tA ∈ tsA)
    (hj1 : j1 ∈ scrapeTerm fetch now sA tA)
    (hsB : sB ∈ sites) (htsB : sB.searchTerms = some tsB) (htB : tB ∈ tsB)
    (hj2 : j2 ∈ scrapeTerm fetch now sB tB)
    (htitle : j1.title = j2.title) (hcomp : j1.company = j2.company)
    (hsrc : j1.source ≠ j2.source) (hid : j1.id ≠ j2.id) :
    ∃ final n, runScraper fetch true now sites store = .ok (final, n) ∧
      ∃ e1, e1 ∈ final ∧ ∃ e2, e2 ∈ final ∧
        e1.id = j1.id ∧ e2.id = j2.id ∧ e1 ≠ e2 := by
  obtain ⟨f1, hf1⟩ := mergeFold_ok fetch now sites store hterms
  have hrun : runScraper fetch true now sites store
      = .ok (sortJobs f1, (sortJobs f1).length) := by
    rw [runScraper, hf1]
    rfl
  have h1 := (mergeFold_ids fetch now sites store f1 hf1).2 sA hsA tsA htsA tA htA j1 hj1
  have h2 := (mergeFold_ids fetch now sites store f1 hf1).2 sB hsB tsB htsB tB htB j2 hj2
  simp only [jobIds] at h1 h2
  rcases List.mem_map.1 h1 with ⟨e1, he1, hide1⟩
  rcases List.mem_map.1 h2 with ⟨e2, he2, hide2⟩
  refine ⟨sortJobs f1, (sortJobs f1).length, hrun,
    e1, mem_sortJobs.2 he1, e2, mem_sortJobs.2 he2, hide1, hide2, ?_⟩
  intro h
  apply hid
  rw [← hide1, ← hide2, h]

/-- C5 witness: the amended theorem applied to sites `A` and `B`, whose
records share title and company but get the distinct ids `A-T-C` and
`B-T-C`. -/
theorem distinct_ids_both_survive_witness :
    jobA ∈ scrapeTerm dupFetch 5 dupSite "k1" ∧
    jobB ∈ scrapeTerm dupFetch 5 bSite "k" ∧
    jobA.title = jobB.title ∧ jobA.company = jobB.company ∧
    jobA.source ≠ jobB.source ∧ jobA.id ≠ jobB.id ∧
    ∃ final n, runScraper dupFetch true 5 [dupSite, bSite] [] = .ok (final, n) ∧
      ∃ e1, e1 ∈ final ∧ ∃ e2, e2 ∈ final ∧
        e1.id = jobA.id ∧ e2.id = jobB.id ∧ e1 ≠ e2 :=
  ⟨by decide, by decide, rfl, rfl, by decide, by decide,
    distinct_ids_both_survive dupFetch 5 [dupSite, bSite] [] dupSite bSite
      ["k1", "k2"] ["k"] "k1" "k" jobA jobB (by decide) (by decide) rfl
      (by decide) (by decide) (by decide) rfl (by decide) (by decide) rfl rfl
      (by decide) (by decide)⟩

/-- C6 counterexample: a site whose `searchTerms` property is absent IS
fatal to the run — the `for…of` iteration throws outside the per-keyword
handler, the caller receives an error response, and nothing is saved —
refuting the claim that such a site is skipped and never fatal. -/
theorem missing_keywords_fatal_cex :
    missingTermsSite.searchTerms = none ∧
    (triggerRun dupFetch true 5 [missingTermsSite] [priorJob]).2.success = false ∧
    (triggerRun dupFetch true 5 [missingTermsSite] [priorJob]).1 = [priorJob] :=
  ⟨rfl, rfl, rfl⟩

/-- C6 amended: a site with an empty (but present) keywords list, or
with an absent selectors object, contributes no records without aborting
anything, and a run over sites that all carry a keyword list reports
success; but a site whose keywords sequence is absent is fatal to the
whole run: the caller receives an error and the store is left unchanged. -/
theorem invalid_site_handling (fetch : FetchOracle) (now : Nat) :
    (∀ site, site.searchTerms = some [] → scrapeJobs fetch now site = .ok []) ∧
    (∀ site ts, site.selectors = none → site.searchTerms = some ts →
      scrapeJobs fetch now site = .ok []) ∧
    (∀ sites store saveOk site, site ∈ sites → site.searchTerms = none →
      (triggerRun fetch saveOk now sites store).2.success = false ∧
      (triggerRun fetch saveOk now sites store).1 = store) ∧
    (∀ sites store saveOk, (∀ s ∈ sites, s.searchTerms.isSome) →
      (triggerRun fetch saveOk now sites store).2.success = true) := by
  refine ⟨?_, ?_, ?_, ?_⟩
  · intro site h
    simp [scrapeJobs, h]
  · intro site ts hsel hts
    rw [scrapeJobs_of_terms hts]
    congr 1
    simp only [List.flatten_eq_nil_iff]
    intro l hl
    rcases List.mem_map.1 hl with ⟨t, ht, rfl⟩
    exact scrapeTerm_selectors_none hsel t
  · intro sites store saveOk site hmem hnone
    have herr := mergeFold_error_of_missing_terms fetch now sites store site hmem hnone
    constructor
    · simp [triggerRun, runScraper, herr]
    · simp [triggerRun, runScraper, herr]
  · intro sites store saveOk hterms
    obtain ⟨f1, hf1⟩ := mergeFold_ok fetch now sites store hterms
    simp [triggerRun, runScraper, hf1]

/-- C6 witness: the invalid-site theorem applied to a concrete empty-
keywords site, an absent-selectors site, and an absent-keywords site. -/
theorem invalid_site_handling_witness :
    scrapeJobs dupFetch 5 emptyTermsSite = .ok [] ∧
    scrapeJobs dupFetch 5 noSelectorsSite = .ok [] ∧
    ((triggerRun dupFetch true 5 [missingTermsSite] [priorJob]).2.success = false ∧
      (triggerRun dupFetch true 5 [missingTermsSite] [priorJob]).1 = [priorJob]) ∧
    (triggerRun dupFetch true 5 [emptyTermsSite] []).2.success = true :=
  ⟨(invalid_site_handling dupFetch 5).1 emptyTermsSite rfl,
   (invalid_site_handling dupFetch 5).2.1 noSelectorsSite ["k"] rfl rfl,
   (invalid_site_handling dupFetch 5).2.2.1 [missingTermsSite] [priorJob] true
     missingTermsSite (by decide) rfl,
   (invalid_site_handling dupFetch 5).2.2.2 [emptyTermsSite] [] true (by decide)⟩

/-- C7 counterexample: a `PUT /api/sites/0` whose body is missing every
required field is accepted — the handler validates only the index — and
the stored registry is mutated to hold the invalid body, refuting the
claim that update validates the required-fields invariant before
mutating. -/
theorem update_missing_fields_accepted_cex :
    validSite emptyBody = false ∧
    putSite [acme] (some 0) emptyBody = ([emptyBody], .updated emptyBody) ∧
    [emptyBody] ≠ [acme] := ⟨rfl, rfl, by decide⟩

/-- C7 amended: only the add operation validates the required-fields
invariant (rejecting an invalid body with a 400 and no mutation); update
and delete validate only the index, answering 404 without mutation for a
`NaN` or out-of-range index, and an in-range update overwrites the slot
with any body, validated or not. -/
theorem registry_crud (sites : List Site) (body : Site) (i : Int) :
    (validSite body = false → postSite sites body = (sites, .badRequest)) ∧
    (validSite body = true → postSite sites body = (sites ++ [body], .created body)) ∧
    putSite sites none body = (sites, .notFound) ∧
    deleteSite sites none = (sites, .notFound) ∧
    (i < 0 ∨ (sites.length : Int) ≤ i →
      putSite sites (some i) body = (sites, .notFound) ∧
      deleteSite sites (some i) = (sites, .notFound)) ∧
    (0 ≤ i → i < (sites.length : Int) →
      putSite sites (some i) body = (sites.set i.toNat body, .updated body) ∧
      deleteSite sites (some i) = (sites.eraseIdx i.toNat, .deleted)) := by
  refine ⟨fun h => by simp [postSite, h], fun h => by simp [postSite, h], rfl, rfl,
    fun h => ⟨by simp [putSite, h], by simp [deleteSite, h]⟩,
    fun h1 h2 => ⟨?_, ?_⟩⟩
  · simp [putSite, not_or, not_le, h1, h2, not_lt.2 h1, not_lt]
  · simp [deleteSite, not_or, not_le, h1, h2, not_lt.2 h1, not_lt]

/-- C7 witness: the registry CRUD theorem at a concrete registry, an
invalid body, and an out-of-range index. -/
theorem registry_crud_witness :
    validSite emptyBody = false ∧
    postSite [acme] emptyBody = ([acme], .badRequest) ∧
    putSite [acme] none emptyBody = ([acme], .notFound) ∧
    (putSite [acme] (some 3) emptyBody = ([acme], .notFound) ∧
      deleteSite [acme] (some 3) = ([acme], .notFound)) := by
  refine ⟨by decide, ?_, ?_, ?_⟩
  · exact (registry_crud [acme] emptyBody 3).1 (by decide)
  · exact (registry_crud [acme] emptyBody 3).2.2.1
  · exact (registry_crud [acme] emptyBody 3).2.2.2.2.1 (by decide)

/-- C8: the end-to-end example.  Scraping the `Acme` site, whose fetch
yields one container with title `Sound Designer`, company `Studio X` and
relative link `/job/42`, produces exactly one record with id
`Acme-Sound-Designer-Studio-X`, the relative link resolved against the
origin `https://acme.test` of the base URL, source `Acme` and keyword
`audio`; a full run persists exactly that record. -/
theorem acme_end_to_end :
    scrapeJobs acmeFetch 7 acme =
      .ok [{ id := "Acme-Sound-Designer-Studio-X", title := "Sound Designer",
             company := "Studio X", location := "",
             link := some "https://acme.test/job/42", source := "Acme",
             keyword := "audio", date := 7 }] ∧
    (triggerRun acmeFetch true 7 [acme] []).1 =
      [{ id := "Acme-Sound-Designer-Studio-X", title := "Sound Designer",
         company := "Studio X", location := "",
         link := some "https://acme.test/job/42", source := "Acme",
         keyword := "audio", date := 7 }] := ⟨rfl, rfl⟩

/-- C10: a container with a non-empty trimmed title but no href match
still yields a record, whose link field is `none` (undefined) — not the
empty string and not a URL — while the title/company/location fields are
the trimmed text of their sub-matches, degrading to the empty string when
the sub-match text is empty. -/
theorem missing_href_link_undefined (site : Site) (term : String) (now : Nat)
    (c : RawContainer) (fetch : FetchOracle) (sel : Selectors)
    (hsel : site.selectors = some sel) (hfetch : fetch site term = .ok [c])
    (hhref : c.href = none) (htitle : jsTrim c.titleText ≠ "") :
    ∃ j, scrapeTerm fetch now site term = [j] ∧ j.link = none ∧
      j.title = jsTrim c.titleText ∧ j.company = jsTrim c.companyText ∧
      j.location = jsTrim c.locationText ∧
      (c.companyText = "" → j.company = "") ∧
      (c.locationText = "" → j.location = "") := by
  have hx : extractJob site term now c =
      some { id := sanitizeId (jsStr site.name ++ "-" ++ jsTrim c.titleText
                    ++ "-" ++ jsTrim c.companyText),
             title := jsTrim c.titleText, company := jsTrim c.companyText,
             location := jsTrim c.locationText, link := none,
             source := jsStr site.name, keyword := term, date := now } := by
    simp [extractJob, hhref, htitle]
  refine ⟨{ id := sanitizeId (jsStr site.name ++ "-" ++ jsTrim c.titleText
              ++ "-" ++ jsTrim c.companyText),
            title := jsTrim c.titleText, company := jsTrim c.companyText,
            location := jsTrim c.locationText, link := none,
            source := jsStr site.name, keyword := term, date := now },
    ?_, rfl, rfl, rfl, rfl, ?_, ?_⟩
  · simp [scrapeTerm, hfetch, hsel, hx]
  · intro h
    show jsTrim c.companyText = ""
    rw [h]
    rfl
  · intro h
    show jsTrim c.locationText = ""
    rw [h]
    rfl

/-- C10 witness: the missing-href theorem applied to a concrete container
with a padded title, empty company text and no href. -/
theorem missing_href_link_undefined_witness :
    noHrefFetch dupSite "k1" = .ok [⟨" Dev ", "", "City", none⟩] ∧
    ∃ j, scrapeTerm noHrefFetch 4 dupSite "k1" = [j] ∧ j.link = none ∧
      j.title = jsTrim " Dev " ∧ j.company = jsTrim "" ∧
      j.location = jsTrim "City" ∧
      (("" : String) = "" → j.company = "") ∧
      (("City" : String) = "" → j.location = "") :=
  ⟨rfl, missing_href_link_undefined dupSite "k1" 4 ⟨" Dev ", "", "City", none⟩
    noHrefFetch demoSelectors rfl rfl rfl (by decide)⟩

end WebScrape
